import Mathlib

/-!
Verification of the k6-grafana-stack demo service's middleware pipeline.

The Go sources are shallowly embedded here:
- an HTTP handler is modelled as a function from a request to the list of
  write events it performs on the response writer;
- a middleware is a handler transformer, as in the Go type
  `type middleware func(next http.HandlerFunc) http.HandlerFunc`;
- the per-request execution context is a record holding the one key the
  program uses (`correlationId`), whose value may be a string or a
  non-string (modelling Go's untyped `context.Value`);
- fallible effects (the HTTP round trip of `httpStabler.stable`, the body
  read, the body close, the random draws) are modelled by explicit outcome
  parameters, and the Go panic of an unchecked type assertion is modelled
  by `Option`.

The repository ships several iterations of the program. `main.go` is the
final, instrumented one; an earlier iteration (the file with the "active"
fault injection and the `httpStabler` that never closes the response body)
is embedded separately where a claim depends on it, with a `V2` suffix.
-/

/-- A write event performed on an `http.ResponseWriter`: an explicit
`WriteHeader(status)`, a body `Write`, or the observable sleep performed by
the `slowDown` middleware. -/
inductive WEvent where
  | writeHeader : Nat → WEvent
  | write : String → WEvent
  | slept : Nat → WEvent
  deriving DecidableEq, Repr

/-- The value stored in the execution context under a key: Go's
`context.Value` is untyped, so a stored value is either a string or
something that is not a string. -/
inductive CtxVal where
  | str : String → CtxVal
  | nonString : CtxVal
  deriving DecidableEq, Repr

/-- The request-scoped execution context, restricted to the single key the
program reads and writes: `correlationId`. `none` models a context in which
the key is absent. -/
structure Ctx where
  correlationId : Option CtxVal
  deriving DecidableEq, Repr

/-- An inbound HTTP request: method, path, header lookup (with Go's
`Header.Get` convention of returning `""` for an absent key), and the
attached execution context. -/
structure Request where
  method : String
  path : String
  header : String → String
  ctx : Ctx

/-- A handler, as the trace of write events it performs for a request
(the embedding of `http.HandlerFunc`). -/
abbrev HandlerF := Request → List WEvent

/-- The Go middleware type:
`type middleware func(next http.HandlerFunc) http.HandlerFunc`. -/
abbrev middleware := HandlerF → HandlerF

/-- The pipeline composer from `main.go`:

    func wrap(f http.HandlerFunc, m ...middleware) http.HandlerFunc {
        handler := f
        for _, mid := range m {
            handler = mid(handler)
        }
        return handler
    }
-/
def wrap (f : HandlerF) (m : List middleware) : HandlerF :=
  m.foldl (fun handler mid => mid handler) f

/-- A concrete request used to exercise closed evaluations. -/
def req0 : Request :=
  { method := "GET", path := "/x", header := fun _ => "", ctx := ⟨none⟩ }

/-- A middleware whose before-logic records the tag `"A-before"`. -/
def mwTagA : middleware :=
  fun h req => WEvent.write "A-before" :: h req

/-- A middleware whose before-logic records the tag `"B-before"`. -/
def mwTagB : middleware :=
  fun h req => WEvent.write "B-before" :: h req

/-- A terminal handler that only writes a 200 header. -/
def baseH : HandlerF :=
  fun _ => [WEvent.writeHeader 200]

/-- The fallthrough of `correlationIdMiddleware.ServeHTTP` in `main.go`: read
the inbound `correlation-id` header, generate a nanosecond-timestamp id when
the header is empty, and attach the resolved id to a derived context:

    correlationId := request.Header.Get("correlation-id")
    if len(correlationId) == 0 {
        correlationId = strconv.Itoa(time.Now().Nanosecond())
    }
    withCid := context.WithValue(request.Context(), "correlationId", correlationId)
    m.Handler.ServeHTTP(writer, request.WithContext(withCid))

The current nanosecond is passed in as the parameter `nano`. -/
def attachNewCid (nano : Nat) (req : Request) : Request :=
  let fromHeader := req.header "correlation-id"
  let correlationId := if fromHeader.length ≠ 0 then fromHeader else Nat.repr nano
  { req with ctx := { correlationId := some (CtxVal.str correlationId) } }

/-- The request transformation performed by
`correlationIdMiddleware.ServeHTTP` (`main.go`) before it delegates to the
wrapped handler — the spec calls this operation `ensureCorrelationId`:

    ctxCidMaybe := request.Context().Value("correlationId")
    ctxCid, ok := ctxCidMaybe.(string)
    if ok && len(ctxCid) != 0 {
        m.Handler.ServeHTTP(writer, request)
        return
    }
    ... (fallthrough modelled by attachNewCid)
-/
def ensureCorrelationId (nano : Nat) (req : Request) : Request :=
  match req.ctx.correlationId with
  | some (CtxVal.str ctxCid) =>
    if ctxCid.length ≠ 0 then req else attachNewCid nano req
  | _ => attachNewCid nano req

/-- The terminal stable handler (`stableHandler.ServeHTTP`):

    writer.WriteHeader(200)
    _, _ = writer.Write([]byte("hello world"))
-/
def stableHandler_ServeHTTP : HandlerF :=
  fun _ => [WEvent.writeHeader 200, WEvent.write "hello world"]

/-- The status captured by `statusHoldingResponseWriter`: every
`WriteHeader(statusCode)` sets the `status` field, whose Go zero value is 0,
so the captured status is the last explicitly written one (0 when the inner
handler never calls `WriteHeader`). -/
def capturedStatus (evs : List WEvent) : Nat :=
  evs.foldl (fun st e => match e with | WEvent.writeHeader n => n | _ => st) 0

/-- The counting middleware (`countingMiddleware.ServeHTTP` in `main.go`):

    defer m.total.Inc()
    writer := &statusHoldingResponseWriter{ResponseWriter: w}
    m.Handler.ServeHTTP(writer, r)
    if writer.status < 500 {
        m.ok.Inc()
    }

The inner handler may fail to complete (a Go panic), modelled by `none`;
the deferred total increment still fires in that case, while the success
increment is skipped. -/
def countingMiddleware_ServeHTTP (inner : Request → Option (List WEvent))
    (total ok : Nat) (req : Request) : Option (List WEvent) × Nat × Nat :=
  match inner req with
  | none => (none, total + 1, ok)
  | some evs =>
    (some evs, total + 1, if capturedStatus evs < 500 then ok + 1 else ok)

/-- The `/stable` route chain of `main.go` (`newLogicHandler`): the counting
middleware wraps the correlation-id middleware, which wraps the stable
handler. -/
def stableRoute_serve (nano total ok : Nat) (req : Request) :
    Option (List WEvent) × Nat × Nat :=
  countingMiddleware_ServeHTTP
    (fun r => some (stableHandler_ServeHTTP (ensureCorrelationId nano r)))
    total ok req

/-- The 404 fallback of the router (`notFoundResponse`). -/
def notFoundResponse : List WEvent :=
  [WEvent.writeHeader 404, WEvent.write "not found"]

/-- The top-level router (`logicHandler.ServeHTTP` in `main.go`): dispatch on
the request path to the stable chain, the unstable chain (abstracted as the
parameter `unstableH`, matching the handler field of the `logicHandler`
struct), or the 404 fallback. -/
def logicHandler_ServeHTTP (nano total ok : Nat)
    (unstableH : Request → Option (List WEvent)) (req : Request) :
    Option (List WEvent) × Nat × Nat :=
  if req.path = "/stable" then stableRoute_serve nano total ok req
  else if req.path = "/unstable" then (unstableH req, total, ok)
  else (some notFoundResponse, total, ok)

/-- A middleware whose application may itself perform observable effects
(the `slowDown` middleware of the earlier iteration sleeps when it is
applied, not when the composed handler runs): applying it yields the events
performed at composition time together with the resulting handler. -/
abbrev MiddlewareE := HandlerF → (List WEvent × HandlerF)

/-- The composer `wrap` as executed on effectful middleware: the same left
fold as `wrap`, also collecting the events performed while each middleware
is applied. -/
def wrapE (f : HandlerF) (m : List MiddlewareE) : List WEvent × HandlerF :=
  m.foldl (fun acc mid =>
    let r := mid acc.2
    (acc.1 ++ r.1, r.2)) ([], f)

/-- The active fault-injection middleware of the earlier iteration:

    func injectFails(l *zap.Logger, next http.HandlerFunc) http.HandlerFunc {
        return func(writer http.ResponseWriter, request *http.Request) {
            if rand.Intn(2) == 0 {
                next(writer, request)
                return
            }
            l.Info("random fail")
            writer.WriteHeader(500)
        }
    }

The draw `rand.Intn(2)` is passed in as `coin : Fin 2`. -/
def injectFails (coin : Fin 2) (next : HandlerF) : HandlerF :=
  fun req => if coin = 0 then next req else [WEvent.writeHeader 500]

/-- `injectFails` as an effectful middleware: building the closure performs
no effect. -/
def injectFailsE (coin : Fin 2) : MiddlewareE :=
  fun next => ([], injectFails coin next)

/-- The delay middleware of the earlier iteration:

    func slowDown(l *zap.Logger, next http.HandlerFunc) http.HandlerFunc {
        ms := rand.Intn(1000)
        l.Info("slowing down", zap.Int("ms", ms))
        time.Sleep(time.Duration(ms * int(time.Millisecond)))
        return next
    }

The sleep happens when the middleware is APPLIED (during `wrap`), and the
downstream handler is returned unchanged. The draw `rand.Intn(1000)` is
passed in as `delayMs`. -/
def slowDownE (delayMs : Nat) : MiddlewareE :=
  fun next => ([WEvent.slept delayMs], next)

/-- The business logic closure of `unstableHandler.ServeHTTP`: call the
stabler; on error write 500, on success write 200 and the body. The
stabler's outcome is passed in as `stablerResult`. -/
def unstableLogic (stablerResult : Except String String) : HandlerF :=
  fun _ =>
    match stablerResult with
    | Except.error _ => [WEvent.writeHeader 500]
    | Except.ok resp => [WEvent.writeHeader 200, WEvent.write resp]

/-- `unstableHandler.ServeHTTP` of the earlier (active fault injection)
iteration: compose the business logic with `[injectFails, slowDown]` via
`wrap` and invoke the result —

    wrap(
        func(writer, request) { ... u.stable ... },
        func(next) { return injectFails(log, next) },
        func(next) { return slowDown(log, next) },
    )(writer, request)

The trace is the composition-time events followed by the invocation events. -/
def unstableHandler_ServeHTTP (coin : Fin 2) (delayMs : Nat)
    (stablerResult : Except String String) : HandlerF :=
  fun req =>
    let p := wrapE (unstableLogic stablerResult) [injectFailsE coin, slowDownE delayMs]
    p.1 ++ p.2 req

deriving instance DecidableEq for Except

/-- The outbound GET request built by `httpStabler.stable`. -/
structure OutRequest where
  method : String
  urlStr : String
  correlationHeader : List String
  deriving DecidableEq, Repr

/-- The response received from the internal round trip, as the aspects the
code observes: the status code, the outcome of `io.ReadAll(resp.Body)`
(error message, or the full body), and whether `resp.Body.Close()` fails. -/
structure HttpResp where
  status : Nat
  bodyRead : Except String String
  closeErr : Option String
  deriving DecidableEq, Repr

/-- The outcome of `Client.Do`: a network error, or a received response. -/
inductive DoOutcome where
  | netErr : String → DoOutcome
  | resp : HttpResp → DoOutcome
  deriving DecidableEq, Repr

/-- Everything observable about one call of `httpStabler.stable`: the
outbound request it built, the `(string, error)` result, how many times the
response body was closed, and the close failures that were logged. -/
structure StablerTrace where
  outReq : OutRequest
  result : Except String String
  closes : Nat
  loggedCloseErrs : List String
  deriving DecidableEq, Repr

/-- The constant internal URL of `httpStabler.stable`; `url.Parse` cannot
fail on it, so the `log.Fatal` branch is unreachable and is not modelled. -/
def stableUrl : String := "http://localhost:8080/stable"

/-- `httpStabler.stable` from `main.go`:

    cId := ctx.Value("correlationId").(string)
    ...
    resp, err := s.Client.Do(getReq.WithContext(ctx))
    if err != nil { return "", fmt.Errorf("could not send get request to %s. %v", ...) }
    defer logErr(log, resp.Body.Close)
    bytes, err := io.ReadAll(resp.Body)
    if err != nil { return "", fmt.Errorf("could not read response bytes. %v", err) }
    return string(bytes), nil

The unchecked type assertion panics when the context value is absent or not
a string; the panic is modelled by `none`. The deferred
`logErr(log, resp.Body.Close)` closes the body exactly once on each path
after a response was received and logs (only) a failing close. -/
def httpStabler_stable (ctx : Ctx) (outcome : DoOutcome) : Option StablerTrace :=
  match ctx.correlationId with
  | some (CtxVal.str cId) =>
    let getReq : OutRequest :=
      { method := "GET", urlStr := stableUrl, correlationHeader := [cId] }
    some (match outcome with
      | DoOutcome.netErr e =>
        { outReq := getReq
          result := Except.error ("could not send get request to " ++ stableUrl ++ ". " ++ e)
          closes := 0
          loggedCloseErrs := [] }
      | DoOutcome.resp r =>
        let logged := match r.closeErr with
          | none => []
          | some e => [e]
        match r.bodyRead with
        | Except.error e =>
          { outReq := getReq
            result := Except.error ("could not read response bytes. " ++ e)
            closes := 1
            loggedCloseErrs := logged }
        | Except.ok body =>
          { outReq := getReq
            result := Except.ok body
            closes := 1
            loggedCloseErrs := logged })
  | _ => none

/-- `httpStabler.stable` of the earlier iteration: identical to the
`main.go` version except that it has NO `defer ... resp.Body.Close` — the
response body is never closed on any path. -/
def httpStablerV2_stable (ctx : Ctx) (outcome : DoOutcome) : Option StablerTrace :=
  match ctx.correlationId with
  | some (CtxVal.str cId) =>
    let getReq : OutRequest :=
      { method := "GET", urlStr := stableUrl, correlationHeader := [cId] }
    some (match outcome with
      | DoOutcome.netErr e =>
        { outReq := getReq
          result := Except.error ("could not send get request to " ++ stableUrl ++ ". " ++ e)
          closes := 0
          loggedCloseErrs := [] }
      | DoOutcome.resp r =>
        match r.bodyRead with
        | Except.error e =>
          { outReq := getReq
            result := Except.error ("could not read response bytes. " ++ e)
            closes := 0
            loggedCloseErrs := [] }
        | Except.ok body =>
          { outReq := getReq
            result := Except.ok body
            closes := 0
            loggedCloseErrs := [] })
  | _ => none

/-- A concrete request whose context already carries the correlation id
`"abc-123"`. -/
def reqCid : Request :=
  { method := "GET", path := "/unstable", header := fun _ => ""
    ctx := ⟨some (CtxVal.str "abc-123")⟩ }

/-- A concrete inbound request to `/unstable` carrying the header
`correlation-id: abc-123` and an empty context. -/
def reqHdr : Request :=
  { method := "GET", path := "/unstable"
    header := fun k => if k = "correlation-id" then "abc-123" else ""
    ctx := ⟨none⟩ }

/-- A concrete request to `/stable` with arbitrary method, headers and a
non-string context value. -/
def reqStable : Request :=
  { method := "POST", path := "/stable", header := fun _ => "x"
    ctx := ⟨some CtxVal.nonString⟩ }

/-!
Theorems. Each claim of the specification corresponds to one theorem below.
-/

/-- Fuel-indexed digit accumulation of `Nat.repr` never empties a non-empty
accumulator. -/
theorem toDigitsCore_ne_nil (b fuel n : Nat) (ds : List Char) (h : ds ≠ []) :
    Nat.toDigitsCore b fuel n ds ≠ [] := by
  induction fuel generalizing n ds with
  | zero => simpa [Nat.toDigitsCore] using h
  | succ f ih =>
    simp only [Nat.toDigitsCore]
    split
    · simp
    · exact ih _ _ (by simp)

/-- The decimal representation of a natural number is a non-empty string;
this is what makes the generated fallback correlation id
(`strconv.Itoa(time.Now().Nanosecond())`) non-empty. -/
theorem repr_length_ne_zero (n : Nat) : (Nat.repr n).length ≠ 0 := by
  have h : Nat.toDigits 10 n ≠ [] := by
    unfold Nat.toDigits
    simp only [Nat.toDigitsCore]
    split
    · simp
    · exact toDigitsCore_ne_nil _ _ _ _ (by simp)
  simpa [Nat.repr, String.length, List.asString] using h

/-- The id attached by the fallthrough path is always a non-empty string. -/
theorem attachNewCid_nonempty (nano : Nat) (req : Request) :
    ∃ s, (attachNewCid nano req).ctx.correlationId = some (CtxVal.str s) ∧
      s.length ≠ 0 := by
  unfold attachNewCid
  dsimp only
  split
  · exact ⟨_, rfl, by assumption⟩
  · exact ⟨_, rfl, repr_length_ne_zero nano⟩

/-- C1 counterexample: for the two-element middleware list `[mwTagA, mwTagB]`
the composer yields `mwTagB (mwTagA baseH)` — the LAST middleware is the
outermost wrapper, so its before-logic runs first — which differs from the
claimed `mwTagA (mwTagB baseH)` on the concrete request `req0`. -/
theorem wrap_first_outermost_cex :
    wrap baseH [mwTagA, mwTagB] req0 =
      [WEvent.write "B-before", WEvent.write "A-before", WEvent.writeHeader 200] ∧
    mwTagA (mwTagB baseH) req0 =
      [WEvent.write "A-before", WEvent.write "B-before", WEvent.writeHeader 200] ∧
    wrap baseH [mwTagA, mwTagB] req0 ≠ mwTagA (mwTagB baseH) req0 := by
  refine ⟨rfl, rfl, ?_⟩
  decide

/-- C1 (amended): `wrap H [M1, ..., Mn]` returns `Mn(...(M2(M1(H))))`: the
empty list returns `H` unchanged, appending a middleware to the list wraps
the previous composition with it (so the last middleware of the list is the
outermost wrapper), and the whole composition equals the right fold of the
reversed list. -/
theorem wrap_last_outermost :
    (∀ f : HandlerF, wrap f [] = f) ∧
    (∀ (f : HandlerF) (ms : List middleware) (m : middleware),
      wrap f (ms ++ [m]) = m (wrap f ms)) ∧
    (∀ (f : HandlerF) (ms : List middleware),
      wrap f ms = ms.reverse.foldr (fun mid handler => mid handler) f) := by
  refine ⟨fun _ => rfl, fun f ms m => ?_, fun f ms => ?_⟩
  · simp [wrap]
  · simp [wrap, List.foldr_reverse]

/-- A non-empty string has non-zero length, and conversely. -/
theorem string_length_ne_zero_iff (s : String) : s.length ≠ 0 ↔ s ≠ "" := by
  constructor
  · intro hl he
    exact hl (by rw [he]; rfl)
  · intro h h0
    exact h (String.ext (List.length_eq_zero.mp h0))

/-- The middleware passes a request through unchanged when its context
already carries a non-empty string correlation id. -/
theorem ensureCorrelationId_pass (nano : Nat) (req : Request) (s : String)
    (hctx : req.ctx.correlationId = some (CtxVal.str s)) (hs : s.length ≠ 0) :
    ensureCorrelationId nano req = req := by
  unfold ensureCorrelationId
  rw [hctx]
  simp [hs]

/-- The context produced by the middleware always carries a non-empty
string correlation id. -/
theorem ensureCorrelationId_nonempty (nano : Nat) (req : Request) :
    ∃ s, (ensureCorrelationId nano req).ctx.correlationId = some (CtxVal.str s) ∧
      s.length ≠ 0 := by
  unfold ensureCorrelationId
  split
  · split
    · next hs => exact ⟨_, by assumption, hs⟩
    · exact attachNewCid_nonempty nano req
  · exact attachNewCid_nonempty nano req

/-- C5: the correlation-id middleware is idempotent: a request whose
execution context already carries a non-empty string correlation id is
delegated unchanged (no new id generated, context not replaced), and
applying the middleware's request transformation twice — with any two
nanosecond draws — yields the result of applying it once, so the same
correlation id is used both times. -/
theorem ensureCorrelationId_idempotent :
    (∀ (nano : Nat) (req : Request) (s : String),
      req.ctx.correlationId = some (CtxVal.str s) → s ≠ "" →
      ensureCorrelationId nano req = req) ∧
    (∀ (n1 n2 : Nat) (req : Request),
      ensureCorrelationId n2 (ensureCorrelationId n1 req) =
        ensureCorrelationId n1 req) := by
  constructor
  · intro nano req s hctx hne
    exact ensureCorrelationId_pass nano req s hctx
      ((string_length_ne_zero_iff s).mpr hne)
  · intro n1 n2 req
    obtain ⟨s, hctx, hs⟩ := ensureCorrelationId_nonempty n1 req
    exact ensureCorrelationId_pass n2 _ s hctx hs

/-- C5 witness: a context already holding `"abc-123"` is passed through
unchanged. -/
theorem ensureCorrelationId_idempotent_witness :
    ensureCorrelationId 7 reqCid = reqCid :=
  ensureCorrelationId_idempotent.1 7 reqCid "abc-123" rfl (by decide)

/-- C2 counterexample: with fault draw 1 (short-circuit), delay draw 314 and
a stabler that would succeed, the request is short-circuited with HTTP 500
by fault injection, yet the delay sleep IS performed: `slowDown` sleeps
while the chain is being composed, before the fault check ever runs. -/
theorem unstable_delay_on_shortcircuit_cex :
    unstableHandler_ServeHTTP 1 314 (Except.ok "hello world") req0 =
      [WEvent.slept 314, WEvent.writeHeader 500] ∧
    WEvent.slept 314 ∈ unstableHandler_ServeHTTP 1 314 (Except.ok "hello world") req0 := by
  refine ⟨rfl, ?_⟩
  rw [(rfl : unstableHandler_ServeHTTP 1 314 (Except.ok "hello world") req0 =
    [WEvent.slept 314, WEvent.writeHeader 500])]
  exact List.mem_cons_self _ _

/-- C2 (amended): in the active fault-injection iteration the injected delay
is incurred on EVERY request — the sleep happens while the middleware chain
is composed, before the fault check — so it is the first event of the trace
for short-circuited and pass-through requests alike. -/
theorem unstable_delay_always (coin : Fin 2) (delayMs : Nat)
    (stablerResult : Except String String) (req : Request) :
    (unstableHandler_ServeHTTP coin delayMs stablerResult req).head? =
      some (WEvent.slept delayMs) := by
  rfl

/-- C8: each invocation of the active fault-injection middleware acts on one
uniform two-valued draw: draw 1 writes HTTP 500 immediately with a result
independent of the downstream handler, draw 0 delegates to the downstream
handler unchanged, and the injected-500 draws are exactly 1 of the 2
equally likely outcomes — per-call probability one half. -/
theorem injectFails_uniform_fault :
    (∀ (next : HandlerF) (req : Request),
      injectFails 1 next req = [WEvent.writeHeader 500]) ∧
    (∀ (next : HandlerF) (req : Request),
      injectFails 0 next req = next req) ∧
    (Finset.univ.filter (fun c : Fin 2 =>
        injectFails c stableHandler_ServeHTTP req0 =
          [WEvent.writeHeader 500])).card = 1 ∧
    (Finset.univ : Finset (Fin 2)).card = 2 := by
  refine ⟨fun next req => rfl, fun next req => rfl, ?_, rfl⟩
  decide

/-- C9: the counting middleware increments the per-route total counter by
exactly one unconditionally — even when the inner handler does not complete
— and increments the per-route success counter (by one, else not at all)
exactly when the inner handler completed with a captured status strictly
below 500. -/
theorem countingMiddleware_counts (inner : Request → Option (List WEvent))
    (total ok : Nat) (req : Request) :
    (countingMiddleware_ServeHTTP inner total ok req).2.1 = total + 1 ∧
    ((countingMiddleware_ServeHTTP inner total ok req).2.2 = ok + 1 ↔
      ∃ evs, inner req = some evs ∧ capturedStatus evs < 500) ∧
    ((countingMiddleware_ServeHTTP inner total ok req).2.2 = ok + 1 ∨
      (countingMiddleware_ServeHTTP inner total ok req).2.2 = ok) := by
  unfold countingMiddleware_ServeHTTP
  cases h : inner req with
  | none =>
    refine ⟨rfl, ?_, Or.inr rfl⟩
    simp
  | some evs =>
    dsimp only
    split
    · next hlt =>
      refine ⟨rfl, ?_, Or.inl rfl⟩
      simp [hlt]
    · next hge =>
      refine ⟨rfl, ?_, Or.inr rfl⟩
      constructor
      · intro habs
        omega
      · rintro ⟨evs', hevs', hlt'⟩
        obtain rfl := Option.some.inj hevs'
        exact absurd hlt' hge

/-- C7: every request routed to `/stable` — any method, any headers, any
body, any context — is answered with status 200 and body exactly
"hello world"; the stable chain has no failure branch. -/
theorem stable_route_always_200 (nano total ok : Nat)
    (unstableH : Request → Option (List WEvent)) (req : Request)
    (hp : req.path = "/stable") :
    (logicHandler_ServeHTTP nano total ok unstableH req).1 =
      some [WEvent.writeHeader 200, WEvent.write "hello world"] := by
  simp [logicHandler_ServeHTTP, hp, stableRoute_serve,
    countingMiddleware_ServeHTTP, stableHandler_ServeHTTP]

/-- C7 witness: a POST to `/stable` with odd headers and a non-string
context value still yields 200 and "hello world". -/
theorem stable_route_always_200_witness :
    (logicHandler_ServeHTTP 5 0 0 (fun _ => none) reqStable).1 =
      some [WEvent.writeHeader 200, WEvent.write "hello world"] :=
  stable_route_always_200 5 0 0 (fun _ => none) reqStable rfl

/-- C3 counterexample: a received response with the non-2xx status 500 whose
body reads as "oops" makes `httpStabler.stable` return `("oops", nil)` — no
error is returned, because the code never inspects the status code. -/
theorem httpStabler_non2xx_no_error_cex :
    (httpStabler_stable ⟨some (CtxVal.str "abc-123")⟩
        (DoOutcome.resp { status := 500, bodyRead := Except.ok "oops", closeErr := none })).map
      StablerTrace.result = some (Except.ok "oops") ∧
    ¬ (200 ≤ 500 ∧ 500 < 300) :=
  ⟨rfl, by decide⟩

/-- C3 (amended): `httpStabler.stable` returns an error exactly on network
failure or body-read failure; the received response's STATUS is never
inspected — the call's outcome is invariant under the status code, and a
fully read body is returned as the result for any status. -/
theorem httpStabler_error_iff :
    (∀ (cid : String) (s1 s2 : Nat) (br : Except String String) (ce : Option String),
      httpStabler_stable ⟨some (CtxVal.str cid)⟩ (DoOutcome.resp ⟨s1, br, ce⟩) =
        httpStabler_stable ⟨some (CtxVal.str cid)⟩ (DoOutcome.resp ⟨s2, br, ce⟩)) ∧
    (∀ (cid e : String),
      (httpStabler_stable ⟨some (CtxVal.str cid)⟩ (DoOutcome.netErr e)).map
        StablerTrace.result =
        some (Except.error ("could not send get request to " ++ stableUrl ++ ". " ++ e))) ∧
    (∀ (cid e : String) (s : Nat) (ce : Option String),
      (httpStabler_stable ⟨some (CtxVal.str cid)⟩
          (DoOutcome.resp ⟨s, Except.error e, ce⟩)).map StablerTrace.result =
        some (Except.error ("could not read response bytes. " ++ e))) ∧
    (∀ (cid body : String) (s : Nat) (ce : Option String),
      (httpStabler_stable ⟨some (CtxVal.str cid)⟩
          (DoOutcome.resp ⟨s, Except.ok body, ce⟩)).map StablerTrace.result =
        some (Except.ok body)) := by
  refine ⟨fun cid s1 s2 br ce => ?_, fun cid e => rfl, fun cid e s ce => ?_, fun cid body s ce => ?_⟩
  · cases br <;> cases ce <;> rfl
  · cases ce <;> rfl
  · cases ce <;> rfl

/-- C4 counterexample: the earlier iteration's `httpStabler.stable` receives
a response (status 200, fully readable body) and never invokes the
body-release function — zero closes, not exactly one. -/
theorem httpStabler_release_cex :
    (httpStablerV2_stable ⟨some (CtxVal.str "abc-123")⟩
        (DoOutcome.resp { status := 200, bodyRead := Except.ok "hello world", closeErr := none })).map
      StablerTrace.closes = some 0 ∧ (0 : Nat) ≠ 1 :=
  ⟨rfl, by decide⟩

/-- C4 (amended): in the `main.go` variant of `httpStabler.stable`, every
path on which a response was received closes the response body exactly once,
a failing close is logged, and the close outcome never changes the returned
result; the earlier iteration's variant never invokes the close. -/
theorem httpStabler_closes_once :
    (∀ (cid : String) (r : HttpResp),
      (httpStabler_stable ⟨some (CtxVal.str cid)⟩ (DoOutcome.resp r)).map
        StablerTrace.closes = some 1) ∧
    (∀ (cid : String) (r : HttpResp) (e : String),
      r.closeErr = some e →
      (httpStabler_stable ⟨some (CtxVal.str cid)⟩ (DoOutcome.resp r)).map
        StablerTrace.loggedCloseErrs = some [e]) ∧
    (∀ (cid : String) (s : Nat) (br : Except String String) (ce1 ce2 : Option String),
      (httpStabler_stable ⟨some (CtxVal.str cid)⟩ (DoOutcome.resp ⟨s, br, ce1⟩)).map
        StablerTrace.result =
        (httpStabler_stable ⟨some (CtxVal.str cid)⟩ (DoOutcome.resp ⟨s, br, ce2⟩)).map
          StablerTrace.result) ∧
    (∀ (cid : String) (r : HttpResp),
      (httpStablerV2_stable ⟨some (CtxVal.str cid)⟩ (DoOutcome.resp r)).map
        StablerTrace.closes = some 0) := by
  refine ⟨fun cid r => ?_, fun cid r e he => ?_, fun cid s br ce1 ce2 => ?_, fun cid r => ?_⟩
  · obtain ⟨s, br, ce⟩ := r
    cases br <;> cases ce <;> rfl
  · obtain ⟨s, br, ce⟩ := r
    cases he
    cases br <;> rfl
  · cases br <;> cases ce1 <;> cases ce2 <;> rfl
  · obtain ⟨s, br, ce⟩ := r
    cases br <;> cases ce <;> rfl

/-- C4 witness: a received response whose close fails with "close failed"
leads to that failure being logged (and, per the other conjuncts, a single
close). -/
theorem httpStabler_closes_once_witness :
    (httpStabler_stable ⟨some (CtxVal.str "abc-123")⟩
        (DoOutcome.resp ⟨200, Except.ok "hello world", some "close failed"⟩)).map
      StablerTrace.loggedCloseErrs = some ["close failed"] :=
  httpStabler_closes_once.2.1 "abc-123"
    ⟨200, Except.ok "hello world", some "close failed"⟩ "close failed" rfl

/-- For a context carrying the string `v`, the outbound request built by
`httpStabler.stable` carries `correlation-id: v`, whatever the round trip's
outcome. -/
theorem httpStabler_outReq_cid (v : String) (outcome : DoOutcome) :
    ∃ t, httpStabler_stable ⟨some (CtxVal.str v)⟩ outcome = some t ∧
      t.outReq.correlationHeader = [v] := by
  cases outcome with
  | netErr e => exact ⟨_, rfl, rfl⟩
  | resp r =>
    obtain ⟨s, br, ce⟩ := r
    cases br <;> cases ce <;> exact ⟨_, rfl, rfl⟩

/-- The context produced by the correlation-id middleware for an inbound
request with no prior correlation id and a non-empty `correlation-id`
header holds the header value verbatim. -/
theorem ensureCorrelationId_ctx_of_header (nano : Nat) (req : Request) (v : String)
    (hctx : req.ctx.correlationId = none) (hhdr : req.header "correlation-id" = v)
    (hv : v ≠ "") :
    (ensureCorrelationId nano req).ctx = ⟨some (CtxVal.str v)⟩ := by
  have hlen : v.length ≠ 0 := (string_length_ne_zero_iff v).mpr hv
  simp only [ensureCorrelationId, hctx]
  simp [attachNewCid, hhdr, hlen]

/-- C6: for every inbound request to `/unstable` whose context carries no
correlation id and whose `correlation-id` header is a non-empty `v`, the
internal GET request built by the HTTP-remote Stabler under the context
produced by the correlation-id middleware carries the header
`correlation-id: v`, verbatim from the execution context. -/
theorem correlation_roundtrip (nano : Nat) (req : Request) (v : String)
    (outcome : DoOutcome)
    (hctx : req.ctx.correlationId = none)
    (hhdr : req.header "correlation-id" = v) (hv : v ≠ "") :
    ∃ t, httpStabler_stable (ensureCorrelationId nano req).ctx outcome = some t ∧
      t.outReq.correlationHeader = [v] := by
  rw [ensureCorrelationId_ctx_of_header nano req v hctx hhdr hv]
  exact httpStabler_outReq_cid v outcome

/-- C6 witness: the inbound request carrying `correlation-id: abc-123`
produces an internal call carrying `correlation-id: abc-123`. -/
theorem correlation_roundtrip_witness :
    ∃ t, httpStabler_stable (ensureCorrelationId 7 reqHdr).ctx
        (DoOutcome.resp ⟨200, Except.ok "hello world", none⟩) = some t ∧
      t.outReq.correlationHeader = ["abc-123"] :=
  correlation_roundtrip 7 reqHdr "abc-123" _ rfl (by simp [reqHdr]) (by decide)

/-- C10: `httpStabler.stable` (in both iterations) panics — modelled by
`none` — exactly on the contexts whose `correlationId` value is absent or
not a string; when the context carries a string it never panics, whatever
the round trip's outcome. -/
theorem httpStabler_panics_iff_no_string_cid (ctx : Ctx) (outcome : DoOutcome) :
    (httpStabler_stable ctx outcome = none ↔
      ∀ s, ctx.correlationId ≠ some (CtxVal.str s)) ∧
    (httpStablerV2_stable ctx outcome = none ↔
      ∀ s, ctx.correlationId ≠ some (CtxVal.str s)) := by
  obtain ⟨cid⟩ := ctx
  cases cid with
  | none => simp [httpStabler_stable, httpStablerV2_stable]
  | some v =>
    cases v with
    | str s =>
      constructor
      · simp only [httpStabler_stable]
        constructor
        · intro h
          cases h
        · intro h
          exact absurd rfl (h s)
      · simp only [httpStablerV2_stable]
        constructor
        · intro h
          cases h
        · intro h
          exact absurd rfl (h s)
    | nonString => simp [httpStabler_stable, httpStablerV2_stable]
